import Mathlib

/-!
# Verification of the PersonelTakipSistemi authentication flow

A shallow embedding, in Lean 4, of the two-factor authentication flow of
`src/server/auth.ts` (password hashing and comparison, two-factor code
generation, and the `/api/register`, `/api/login`, `/api/verify-2fa`,
`GET /api/user` request handlers), together with the storage-layer user
operations of `src/server/storage.ts` that those handlers call
(`getUser`, `getUserByPhone`, `createUser`, `updateUser`).

Strings of the source become `List Char`; timestamps (`Date` values in
milliseconds) become `Nat`; the `scrypt` key-derivation primitive and the
random sources (`Math.random`, `randomBytes`) are parameters; database
effects are explicit state passing over a list of user rows; the SMS
gateway outcome is a boolean parameter.  Handler results carry the HTTP
status, the response body, the session established by `req.login` (if
any), the resulting database, and (for `/api/login`) the ordered effect
trace and the server-side error log.
-/

/-- Strings of the TypeScript source, embedded as lists of characters. -/
abbrev Str := List Char

/-! ## Hex encoding (Buffer.toString("hex") / Buffer.from(s, "hex")) -/

/-- The lower-case hex digit for `n < 16`; for `n < 10` this is also the
decimal digit character used by `Number.prototype.toString`. -/
def hexDigit (n : Nat) : Char :=
  if n < 10 then Char.ofNat (48 + n) else Char.ofNat (87 + n)

/-- Numeric value of a lower-case hex digit character. -/
def hexVal (c : Char) : Nat :=
  if c.toNat ≤ 57 then c.toNat - 48 else c.toNat - 87

/-- `Buffer.prototype.toString("hex")`: each byte becomes two lower-case
hex characters. -/
def hexEncode : List Nat → Str
  | [] => []
  | b :: bs => hexDigit (b / 16) :: hexDigit (b % 16) :: hexEncode bs

/-- `Buffer.from(s, "hex")`: consecutive pairs of hex characters become
bytes (a trailing unpaired character is dropped, as in Node). -/
def hexDecode : Str → List Nat
  | h :: l :: rest => (hexVal h * 16 + hexVal l) :: hexDecode rest
  | _ => []

/-! ## String.prototype.split(".") -/

/-- `s.split(sep)` of JavaScript for a single-character separator. -/
def splitOn (sep : Char) : Str → List Str
  | [] => [[]]
  | c :: cs =>
    if c = sep then [] :: splitOn sep cs
    else
      match splitOn sep cs with
      | [] => [[c]]
      | h :: t => (c :: h) :: t

/-! ## Number.prototype.toString (decimal, for naturals) -/

/-- Fuel-driven decimal rendering; with fuel at least the number itself the
recursion always bottoms out at 0. -/
def natToStrGo : Nat → Nat → Str
  | _, 0 => []
  | 0, _ + 1 => []
  | f + 1, n + 1 => natToStrGo f ((n + 1) / 10) ++ [hexDigit ((n + 1) % 10)]

/-- `Number.prototype.toString()` for a natural number: decimal digits,
no leading zeros, `"0"` for zero. -/
def natToStr (n : Nat) : Str :=
  if n = 0 then ['0'] else natToStrGo n n

/-! ## generateTwoFactorCode

`Math.floor(100000 + Math.random() * 900000).toString()` where
`Math.random()` draws `r` with `0 ≤ r < 1`; the draw is a parameter. -/

/-- Numeric value of the generated two-factor code for random draw `r`. -/
def generateTwoFactorValue (r : ℚ) : Nat :=
  ⌊(100000 : ℚ) + r * 900000⌋₊

/-- `generateTwoFactorCode` of `auth.ts`, with the `Math.random()` draw
made explicit. -/
def generateTwoFactorCode (r : ℚ) : Str :=
  natToStr (generateTwoFactorValue r)

/-! ## Password hashing (hashPassword / comparePasswords) -/

/-- `hashPassword` of `auth.ts`.  `scrypt` is the key-derivation primitive
(password and salt strings to a byte list); `saltBytes` stands for the 16
bytes drawn by `randomBytes(16)`. -/
def hashPassword (scrypt : Str → Str → List Nat) (password : Str)
    (saltBytes : List Nat) : Str :=
  let salt := hexEncode saltBytes
  hexEncode (scrypt password salt) ++ '.' :: salt

/-- `comparePasswords` of `auth.ts`.  `none` models a thrown exception
(missing salt half after the split, or `timingSafeEqual` on buffers of
different lengths); `some b` is a normal return of `b`. -/
def comparePasswords (scrypt : Str → Str → List Nat) (supplied stored : Str) :
    Option Bool :=
  match splitOn '.' stored with
  | hashed :: salt :: _ =>
    let hashedBuf := hexDecode hashed
    let suppliedBuf := scrypt supplied salt
    if hashedBuf.length = suppliedBuf.length then
      some (decide (hashedBuf = suppliedBuf))
    else none
  | _ => none

/-! ## Data model: users and the storage layer -/

/-- A row of the `users` table, restricted to the columns the
authentication flow reads or writes.  `twoFactorExpiry` is a millisecond
timestamp. -/
structure User where
  id : Str
  phone : Str
  password : Str
  name : Str
  role : Str
  branchId : Option Str
  isActive : Bool
  twoFactorCode : Option Str
  twoFactorExpiry : Option Nat
  deriving Repr, DecidableEq

/-- The database state: the rows of the `users` table. -/
abbrev Db := List User

/-- `storage.getUser(id)`: select by primary key. -/
def getUser (db : Db) (id : Str) : Option User :=
  db.find? (fun u => u.id = id)

/-- `storage.getUserByPhone(phone)`: select by phone column. -/
def getUserByPhone (db : Db) (phone : Str) : Option User :=
  db.find? (fun u => u.phone = phone)

/-- `storage.updateUser(id, updates)`: row-level update of the rows whose
id matches, with the updated columns given as a function on the row. -/
def updateUser (db : Db) (id : Str) (f : User → User) : Db :=
  db.map (fun u => if u.id = id then f u else u)

/-- `storage.createUser(insertUser)`: insert a row. -/
def createUser (db : Db) (u : User) : Db :=
  db ++ [u]

/-- The five public user fields that success responses expose:
`{id, phone, name, role, branchId}`. -/
structure PublicUser where
  id : Str
  phone : Str
  name : Str
  role : Str
  branchId : Option Str
  deriving Repr, DecidableEq

/-- The response body built by the register, verify-2fa and `GET /api/user`
handlers: exactly `{id, phone, name, role, branchId}`. -/
def publicView (u : User) : PublicUser :=
  { id := u.id, phone := u.phone, name := u.name, role := u.role,
    branchId := u.branchId }

/-! ## The LocalStrategy verify callback -/

/-- Outcome of the passport LocalStrategy verify callback:
`done(null, false, msg)`, `done(null, user)`, or `done(error)`. -/
inductive AuthOutcome where
  | fail
  | ok (u : User)
  | err
  deriving Repr, DecidableEq

/-- The LocalStrategy verify callback of `auth.ts`: look the user up by
phone; deny if absent, inactive, or the password does not compare equal;
propagate a thrown exception as an error. -/
def localVerify (scrypt : Str → Str → List Nat) (db : Db)
    (phone password : Str) : AuthOutcome :=
  match getUserByPhone db phone with
  | none => .fail
  | some u =>
    if u.isActive = false then .fail
    else
      match comparePasswords scrypt password u.password with
      | none => .err
      | some false => .fail
      | some true => .ok u

/-! ## POST /api/login -/

/-- Response body of `/api/login`. -/
inductive LoginBody where
  | failMsg
  | codeSent (requiresTwoFactor : Bool) (userId : Str)
  | serverError
  deriving Repr, DecidableEq

/-- Server-side effects of the login handler, in program order. -/
inductive Ev where
  | dbWrite (userId : Str) (code : Str) (expiry : Nat)
  | smsSend (phone : Str) (code : Str)
  deriving Repr, DecidableEq

/-- Everything a run of the login handler produces: HTTP status, response
body, the session `req.login` would establish (never any here), the
resulting database, the ordered effect trace, and `console.error` lines. -/
structure LoginOut where
  status : Nat
  body : LoginBody
  session : Option Str
  db : Db
  events : List Ev
  errLog : List Str
  deriving Repr, DecidableEq

/-- The `console.error` line logged when SMS delivery fails. -/
def smsFailLine (phone : Str) : Str :=
  "2FA SMS gonderilemedi: ".toList ++ phone

/-- The `POST /api/login` handler of `auth.ts`.  `r` is the `Math.random()`
draw, `now` the current time in milliseconds, `smsSuccess` the boolean the
SMS gateway call resolves to. -/
def loginHandler (scrypt : Str → Str → List Nat) (db : Db)
    (phone password : Str) (r : ℚ) (now : Nat) (smsSuccess : Bool) :
    LoginOut :=
  match localVerify scrypt db phone password with
  | .err =>
    { status := 500, body := .serverError, session := none, db := db,
      events := [], errLog := [] }
  | .fail =>
    { status := 401, body := .failMsg, session := none, db := db,
      events := [], errLog := [] }
  | .ok u =>
    let twoFactorCode := generateTwoFactorCode r
    let twoFactorExpiry := now + 5 * 60 * 1000
    let db' := updateUser db u.id (fun v =>
      { v with twoFactorCode := some twoFactorCode,
               twoFactorExpiry := some twoFactorExpiry })
    { status := 200, body := .codeSent true u.id, session := none,
      db := db',
      events := [.dbWrite u.id twoFactorCode twoFactorExpiry,
                 .smsSend u.phone twoFactorCode],
      errLog := if smsSuccess then [] else [smsFailLine u.phone] }

/-! ## POST /api/verify-2fa -/

/-- Response body of `/api/verify-2fa`, one constructor per return site of
the handler. -/
inductive VerifyBody where
  | missingFields
  | userNotFound
  | noPendingCode
  | expired
  | wrongCode
  | ok (b : PublicUser)
  deriving Repr, DecidableEq

/-- Result of a run of the verify-2fa handler: HTTP status, body, the
session established by `req.login` (the user id, on the success branch
only), and the resulting database. -/
structure VerifyOut where
  status : Nat
  body : VerifyBody
  session : Option Str
  db : Db
  deriving Repr, DecidableEq

/-- The `POST /api/verify-2fa` handler of `auth.ts`.  `userId` and `code`
come from the request body (the empty string standing for a missing or
falsy field); `now` is the current time in milliseconds. -/
def verify2faHandler (db : Db) (userId code : Str) (now : Nat) : VerifyOut :=
  if userId = [] ∨ code = [] then
    { status := 400, body := .missingFields, session := none, db := db }
  else
    match getUser db userId with
    | none => { status := 404, body := .userNotFound, session := none, db := db }
    | some u =>
      match u.twoFactorCode, u.twoFactorExpiry with
      | some stored, some expiry =>
        if stored = [] then
          { status := 400, body := .noPendingCode, session := none, db := db }
        else if expiry < now then
          { status := 400, body := .expired, session := none, db := db }
        else if stored ≠ code then
          { status := 400, body := .wrongCode, session := none, db := db }
        else
          let db' := updateUser db u.id (fun v =>
            { v with twoFactorCode := none, twoFactorExpiry := none })
          { status := 200, body := .ok (publicView u), session := some u.id,
            db := db' }
      | _, _ =>
        { status := 400, body := .noPendingCode, session := none, db := db }

/-! ## POST /api/register -/

/-- Result of a run of the register handler. -/
structure RegisterOut where
  status : Nat
  body : Option PublicUser
  session : Option Str
  db : Db
  deriving Repr, DecidableEq

/-- The `POST /api/register` handler of `auth.ts`.  `saltBytes` stands for
the bytes `randomBytes(16)` draws inside `hashPassword`, and `newId` for
the row id the database assigns on insert. -/
def registerHandler (scrypt : Str → Str → List Nat) (db : Db)
    (phone password name : Str) (role branchId : Option Str)
    (saltBytes : List Nat) (newId : Str) : RegisterOut :=
  if phone = [] ∨ password = [] ∨ name = [] then
    { status := 400, body := none, session := none, db := db }
  else
    match getUserByPhone db phone with
    | some _ => { status := 400, body := none, session := none, db := db }
    | none =>
      let u : User :=
        { id := newId, phone := phone,
          password := hashPassword scrypt password saltBytes,
          name := name, role := role.getD "branch_admin".toList,
          branchId := branchId, isActive := true,
          twoFactorCode := none, twoFactorExpiry := none }
      { status := 201, body := some (publicView u), session := some newId,
        db := createUser db u }

/-! ## GET /api/user -/

/-- Result of `GET /api/user`: 401 when unauthenticated, otherwise the
public fields of the session's user. -/
inductive UserOut where
  | unauthorized
  | ok (b : PublicUser)
  deriving Repr, DecidableEq

/-- The `GET /api/user` handler of `auth.ts`; the argument is the user of
the current session, if any. -/
def userHandler : Option User → UserOut
  | none => .unauthorized
  | some u => .ok (publicView u)

/-! ## Helper lemmas: hex encoding and splitting -/

theorem hexVal_hexDigit : ∀ n < 16, hexVal (hexDigit n) = n := by decide

theorem hexDigit_ne_dot : ∀ n < 16, hexDigit n ≠ '.' := by decide

theorem dot_not_mem_hexEncode (bs : List Nat) (h : ∀ b ∈ bs, b < 256) :
    '.' ∉ hexEncode bs := by
  induction bs with
  | nil => simp [hexEncode]
  | cons b bs ih =>
    have hb : b < 256 := h b (List.mem_cons_self b bs)
    have h1 : b / 16 < 16 := by omega
    have h2 : b % 16 < 16 := by omega
    intro hmem
    simp only [hexEncode, List.mem_cons] at hmem
    rcases hmem with h1' | h2' | hmem
    · exact hexDigit_ne_dot (b / 16) h1 h1'.symm
    · exact hexDigit_ne_dot (b % 16) h2 h2'.symm
    · exact ih (fun x hx => h x (List.mem_cons_of_mem b hx)) hmem

theorem hexDecode_hexEncode (bs : List Nat) (h : ∀ b ∈ bs, b < 256) :
    hexDecode (hexEncode bs) = bs := by
  induction bs with
  | nil => rfl
  | cons b bs ih =>
    have hb : b < 256 := h b (List.mem_cons_self b bs)
    have h1 : b / 16 < 16 := by omega
    have h2 : b % 16 < 16 := by omega
    show (hexVal (hexDigit (b / 16)) * 16 + hexVal (hexDigit (b % 16)))
        :: hexDecode (hexEncode bs) = b :: bs
    rw [hexVal_hexDigit _ h1, hexVal_hexDigit _ h2,
      ih (fun x hx => h x (List.mem_cons_of_mem b hx))]
    congr 1
    omega

theorem splitOn_of_not_mem (sep : Char) (s : Str) (h : sep ∉ s) :
    splitOn sep s = [s] := by
  induction s with
  | nil => rfl
  | cons c cs ih =>
    have hc : ¬ c = sep := fun hcs => h (hcs ▸ List.mem_cons_self c cs)
    have ih' := ih (fun hm => h (List.mem_cons_of_mem c hm))
    simp [splitOn, hc, ih']

theorem splitOn_append (sep : Char) (a b : Str) (ha : sep ∉ a) :
    splitOn sep (a ++ sep :: b) = a :: splitOn sep b := by
  induction a with
  | nil => simp [splitOn]
  | cons c cs ih =>
    have hc : ¬ c = sep := fun hcs => ha (hcs ▸ List.mem_cons_self c cs)
    have ih' := ih (fun hm => ha (List.mem_cons_of_mem c hm))
    show splitOn sep (c :: (cs ++ sep :: b)) = (c :: cs) :: splitOn sep b
    rw [splitOn, if_neg hc, ih']

/-! ## Helper lemmas: decimal rendering -/

theorem natToStrGo_eq_digits : ∀ f n, n ≤ f →
    natToStrGo f n = ((Nat.digits 10 n).map hexDigit).reverse := by
  intro f
  induction f with
  | zero =>
    intro n hn
    have : n = 0 := Nat.le_zero.mp hn
    subst this
    simp [natToStrGo]
  | succ f ih =>
    intro n hn
    match n with
    | 0 => simp [natToStrGo]
    | m + 1 =>
      have hdiv : (m + 1) / 10 ≤ f := by
        have : (m + 1) / 10 < m + 1 := Nat.div_lt_self (Nat.succ_pos m) (by norm_num)
        omega
      rw [natToStrGo, ih _ hdiv,
        Nat.digits_def' (by norm_num : (1:ℕ) < 10) (Nat.succ_pos m)]
      simp

theorem natToStr_eq_digits (n : Nat) (hn : n ≠ 0) :
    natToStr n = ((Nat.digits 10 n).map hexDigit).reverse := by
  rw [natToStr, if_neg hn, natToStrGo_eq_digits n n le_rfl]

theorem natToStr_length_six (n : Nat) (h1 : 100000 ≤ n) (h2 : n ≤ 999999) :
    (natToStr n).length = 6 := by
  have hn : n ≠ 0 := by omega
  rw [natToStr_eq_digits n hn, List.length_reverse, List.length_map,
    Nat.digits_len 10 n (by norm_num) hn]
  have e5 : (10:ℕ) ^ 5 = 100000 := by norm_num
  have e6 : (10:ℕ) ^ 6 = 1000000 := by norm_num
  rw [Nat.log_eq_of_pow_le_of_lt_pow (e5 ▸ h1) (by rw [show (5:ℕ) + 1 = 6 from rfl, e6]; omega)]

theorem natToStr_chars (n : Nat) :
    ∀ c ∈ natToStr n, 48 ≤ c.toNat ∧ c.toNat ≤ 57 := by
  have hd : ∀ d < 10, 48 ≤ (hexDigit d).toNat ∧ (hexDigit d).toNat ≤ 57 := by decide
  intro c hc
  by_cases hn : n = 0
  · subst hn
    have h0 : natToStr 0 = ['0'] := rfl
    rw [h0, List.mem_singleton] at hc
    subst hc
    decide
  · rw [natToStr_eq_digits n hn, List.mem_reverse, List.mem_map] at hc
    obtain ⟨d, hdm, hdc⟩ := hc
    have : d < 10 := Nat.digits_lt_base (by norm_num) hdm
    exact hdc ▸ hd d this

theorem natToStr_ne_nil (n : Nat) : natToStr n ≠ [] := by
  by_cases hn : n = 0
  · subst hn; simp [natToStr]
  · rw [natToStr_eq_digits n hn]
    simp [Nat.digits_ne_nil_iff_ne_zero, hn]

/-! ## Helper lemmas: the two-factor code value -/

theorem generateTwoFactorValue_bounds (r : ℚ) (h0 : 0 ≤ r) (h1 : r < 1) :
    100000 ≤ generateTwoFactorValue r ∧ generateTwoFactorValue r ≤ 999999 := by
  unfold generateTwoFactorValue
  constructor
  · apply Nat.le_floor
    push_cast
    nlinarith
  · have hlt : (100000 : ℚ) + r * 900000 < 1000000 := by nlinarith
    have h2 : ⌊(100000 : ℚ) + r * 900000⌋₊ < 1000000 := by
      rw [Nat.floor_lt (by positivity)]
      push_cast
      linarith
    omega

theorem generateTwoFactorValue_eq_iff (r : ℚ) (h0 : 0 ≤ r) (n : Nat) :
    generateTwoFactorValue r = n ↔
      ((n : ℚ) - 100000) / 900000 ≤ r ∧ r < ((n : ℚ) - 100000 + 1) / 900000 := by
  unfold generateTwoFactorValue
  rw [Nat.floor_eq_iff (by positivity)]
  constructor
  · rintro ⟨ha, hb⟩
    constructor
    · rw [div_le_iff₀ (by norm_num)]
      linarith
    · rw [lt_div_iff₀ (by norm_num)]
      linarith
  · rintro ⟨ha, hb⟩
    rw [div_le_iff₀ (by norm_num)] at ha
    rw [lt_div_iff₀ (by norm_num)] at hb
    constructor
    · linarith
    · linarith

/-! ## Helper lemmas: the storage layer -/

theorem find?_map_pres (g : User → User) (p : User → Bool)
    (hp : ∀ v, p (g v) = p v) (db : Db) :
    (db.map g).find? p = (db.find? p).map g := by
  induction db with
  | nil => rfl
  | cons v vs ih =>
    by_cases hv : p v = true
    · rw [List.map_cons, List.find?_cons_of_pos _ (by rw [hp]; exact hv),
        List.find?_cons_of_pos _ hv]
      rfl
    · rw [List.map_cons, List.find?_cons_of_neg _ (by rw [hp]; exact hv),
        List.find?_cons_of_neg _ hv, ih]

theorem getUser_id_eq {db : Db} {id : Str} {u : User}
    (h : getUser db id = some u) : u.id = id := by
  unfold getUser at h
  simpa using List.find?_some h

theorem getUserByPhone_phone_eq {db : Db} {ph : Str} {u : User}
    (h : getUserByPhone db ph = some u) : u.phone = ph := by
  unfold getUserByPhone at h
  simpa using List.find?_some h

theorem getUser_updateUser {db : Db} {id : Str} {u : User} (f : User → User)
    (hf : ∀ v, (f v).id = v.id) (h : getUser db id = some u) :
    getUser (updateUser db id f) id = some (f u) := by
  have hid := getUser_id_eq h
  unfold getUser updateUser at *
  rw [find?_map_pres _ _ (fun v => by by_cases hv : v.id = id <;> simp [hv, hf]) db, h]
  simp [hid]

theorem getUserByPhone_updateUser {db : Db} {ph : Str} {u : User} (id : Str)
    (f : User → User) (hf : ∀ v, (f v).phone = v.phone)
    (h : getUserByPhone db ph = some u) :
    getUserByPhone (updateUser db id f) ph =
      some (if u.id = id then f u else u) := by
  unfold getUserByPhone updateUser at *
  rw [find?_map_pres _ _ (fun v => by by_cases hv : v.id = id <;> simp [hv, hf]) db, h]
  rfl

/-! ## C8: password verification round-trips with registration hashing -/

/-- C8. For every key-derivation function whose outputs are byte lists and
every salt of bytes, the string stored by `hashPassword` splits at `'.'`
into a hex-encoded hash half and a hex-encoded salt half;
`comparePasswords` accepts the original password against it, and rejects
any password whose derived hash differs (at the derived length of the
original, as `scrypt` has fixed 64-byte output). -/
theorem c8_password_roundtrip (scrypt : Str → Str → List Nat)
    (hb256 : ∀ p s, ∀ b ∈ scrypt p s, b < 256)
    (p : Str) (saltBytes : List Nat) (hsalt : ∀ b ∈ saltBytes, b < 256) :
    splitOn '.' (hashPassword scrypt p saltBytes) =
      [hexEncode (scrypt p (hexEncode saltBytes)), hexEncode saltBytes] ∧
    comparePasswords scrypt p (hashPassword scrypt p saltBytes) = some true ∧
    (∀ p' : Str,
      scrypt p' (hexEncode saltBytes) ≠ scrypt p (hexEncode saltBytes) →
      (scrypt p' (hexEncode saltBytes)).length =
        (scrypt p (hexEncode saltBytes)).length →
      comparePasswords scrypt p' (hashPassword scrypt p saltBytes) =
        some false) := by
  have hdots : '.' ∉ hexEncode (scrypt p (hexEncode saltBytes)) :=
    dot_not_mem_hexEncode _ (hb256 p (hexEncode saltBytes))
  have hdots2 : '.' ∉ hexEncode saltBytes :=
    dot_not_mem_hexEncode _ hsalt
  have hdec : hexDecode (hexEncode (scrypt p (hexEncode saltBytes))) =
      scrypt p (hexEncode saltBytes) :=
    hexDecode_hexEncode _ (hb256 p (hexEncode saltBytes))
  have hsplit : splitOn '.' (hashPassword scrypt p saltBytes) =
      [hexEncode (scrypt p (hexEncode saltBytes)), hexEncode saltBytes] := by
    show splitOn '.'
        (hexEncode (scrypt p (hexEncode saltBytes)) ++ '.' :: hexEncode saltBytes) = _
    rw [splitOn_append _ _ _ hdots, splitOn_of_not_mem _ _ hdots2]
  refine ⟨hsplit, ?_, ?_⟩
  · unfold comparePasswords
    rw [hsplit]
    show (if (hexDecode (hexEncode (scrypt p (hexEncode saltBytes)))).length =
          (scrypt p (hexEncode saltBytes)).length then
        some (decide (hexDecode (hexEncode (scrypt p (hexEncode saltBytes))) =
          scrypt p (hexEncode saltBytes)))
      else none) = some true
    rw [hdec, if_pos rfl]
    simp
  · intro p' hne hlen
    unfold comparePasswords
    rw [hsplit]
    show (if (hexDecode (hexEncode (scrypt p (hexEncode saltBytes)))).length =
          (scrypt p' (hexEncode saltBytes)).length then
        some (decide (hexDecode (hexEncode (scrypt p (hexEncode saltBytes))) =
          scrypt p' (hexEncode saltBytes)))
      else none) = some false
    rw [hdec, if_pos hlen.symm]
    simp [Ne.symm hne]

/-- Closed witness for `c8_password_roundtrip`, at a concrete derivation
function, password and salt. -/
theorem c8_password_roundtrip_witness :
    (∀ p s : Str, ∀ b ∈ (fun (p : Str) (_ : Str) => [p.length % 256]) p s, b < 256) ∧
    (∀ b ∈ [171, 205], b < 256) ∧
    (splitOn '.' (hashPassword (fun (p : Str) (_ : Str) => [p.length % 256])
        "pw".toList [171, 205]) =
      [hexEncode ((fun (p : Str) (_ : Str) => [p.length % 256]) "pw".toList
          (hexEncode [171, 205])), hexEncode [171, 205]] ∧
    comparePasswords (fun (p : Str) (_ : Str) => [p.length % 256]) "pw".toList
        (hashPassword (fun (p : Str) (_ : Str) => [p.length % 256]) "pw".toList
          [171, 205]) = some true ∧
    (∀ p' : Str,
      (fun (p : Str) (_ : Str) => [p.length % 256]) p' (hexEncode [171, 205]) ≠
        (fun (p : Str) (_ : Str) => [p.length % 256]) "pw".toList
          (hexEncode [171, 205]) →
      ((fun (p : Str) (_ : Str) => [p.length % 256]) p'
          (hexEncode [171, 205])).length =
        ((fun (p : Str) (_ : Str) => [p.length % 256]) "pw".toList
          (hexEncode [171, 205])).length →
      comparePasswords (fun (p : Str) (_ : Str) => [p.length % 256]) p'
        (hashPassword (fun (p : Str) (_ : Str) => [p.length % 256]) "pw".toList
          [171, 205]) = some false)) :=
  ⟨fun p _ b hb => by
      simp only [List.mem_singleton] at hb
      subst hb
      exact Nat.mod_lt _ (by norm_num),
   by decide,
   c8_password_roundtrip (fun (p : Str) (_ : Str) => [p.length % 256])
     (fun p _ b hb => by
        simp only [List.mem_singleton] at hb
        subst hb
        exact Nat.mod_lt _ (by norm_num))
     "pw".toList [171, 205] (by decide)⟩

/-! ## C3: the generated two-factor code is a six-digit decimal string -/

/-- C3. For every value of the `Math.random()` draw, the generated code is
the decimal rendering of a value `n` with `100000 ≤ n ≤ 999999`, six
characters long, all decimal digits; conversely every six-digit value is
reached, and the preimage of each value is an interval of draws of the
same width `1/900000` (the range is covered uniformly). -/
theorem c3_two_factor_code_range :
    (∀ r : ℚ, 0 ≤ r → r < 1 →
      100000 ≤ generateTwoFactorValue r ∧ generateTwoFactorValue r ≤ 999999 ∧
      generateTwoFactorCode r = natToStr (generateTwoFactorValue r) ∧
      (generateTwoFactorCode r).length = 6 ∧
      ∀ c ∈ generateTwoFactorCode r, 48 ≤ c.toNat ∧ c.toNat ≤ 57) ∧
    (∀ n : Nat, 100000 ≤ n → n ≤ 999999 →
      ∃ r : ℚ, 0 ≤ r ∧ r < 1 ∧ generateTwoFactorValue r = n ∧
        generateTwoFactorCode r = natToStr n ∧
        ∀ r' : ℚ, 0 ≤ r' →
          (generateTwoFactorValue r' = n ↔
            ((n : ℚ) - 100000) / 900000 ≤ r' ∧
            r' < ((n : ℚ) - 100000 + 1) / 900000)) := by
  constructor
  · intro r h0 h1
    obtain ⟨hb1, hb2⟩ := generateTwoFactorValue_bounds r h0 h1
    exact ⟨hb1, hb2, rfl, natToStr_length_six _ hb1 hb2, natToStr_chars _⟩
  · intro n hn1 hn2
    have hc1 : (100000 : ℚ) ≤ (n : ℚ) := by exact_mod_cast hn1
    have hc2 : (n : ℚ) ≤ 999999 := by exact_mod_cast hn2
    have hr0 : (0 : ℚ) ≤ ((n : ℚ) - 100000) / 900000 :=
      div_nonneg (by linarith) (by norm_num)
    refine ⟨((n : ℚ) - 100000) / 900000, hr0, ?_, ?_, ?_, ?_⟩
    · rw [div_lt_one (by norm_num)]
      linarith
    · rw [generateTwoFactorValue_eq_iff _ hr0 n]
      have hsum : ((n : ℚ) - 100000 + 1) / 900000 =
          ((n : ℚ) - 100000) / 900000 + 1 / 900000 := by ring
      constructor
      · exact le_refl _
      · rw [hsum]
        have : (0 : ℚ) < 1 / 900000 := by norm_num
        linarith
    · show natToStr (generateTwoFactorValue (((n : ℚ) - 100000) / 900000)) = _
      congr 1
      rw [generateTwoFactorValue_eq_iff _ hr0 n]
      have hsum : ((n : ℚ) - 100000 + 1) / 900000 =
          ((n : ℚ) - 100000) / 900000 + 1 / 900000 := by ring
      refine ⟨le_refl _, ?_⟩
      rw [hsum]
      have : (0 : ℚ) < 1 / 900000 := by norm_num
      linarith
    · intro r' h0'
      exact generateTwoFactorValue_eq_iff r' h0' n

/-- Closed witness for `c3_two_factor_code_range`, at draw `1/2` and value
`123456`. -/
theorem c3_two_factor_code_range_witness :
    ((0 : ℚ) ≤ 1 / 2 ∧ (1 / 2 : ℚ) < 1 ∧
      100000 ≤ (123456 : ℕ) ∧ (123456 : ℕ) ≤ 999999) ∧
    (100000 ≤ generateTwoFactorValue (1 / 2) ∧
      generateTwoFactorValue (1 / 2) ≤ 999999 ∧
      generateTwoFactorCode (1 / 2) = natToStr (generateTwoFactorValue (1 / 2)) ∧
      (generateTwoFactorCode (1 / 2)).length = 6 ∧
      ∀ c ∈ generateTwoFactorCode (1 / 2), 48 ≤ c.toNat ∧ c.toNat ≤ 57) ∧
    (∃ r : ℚ, 0 ≤ r ∧ r < 1 ∧ generateTwoFactorValue r = 123456 ∧
      generateTwoFactorCode r = natToStr 123456 ∧
      ∀ r' : ℚ, 0 ≤ r' →
        (generateTwoFactorValue r' = 123456 ↔
          ((123456 : ℚ) - 100000) / 900000 ≤ r' ∧
          r' < ((123456 : ℚ) - 100000 + 1) / 900000)) :=
  ⟨⟨by norm_num, by norm_num, by norm_num, by norm_num⟩,
   c3_two_factor_code_range.1 (1 / 2) (by norm_num) (by norm_num),
   by
     have h := c3_two_factor_code_range.2 123456 (by norm_num) (by norm_num)
     exact_mod_cast h⟩

/-! ## Helper lemmas: handler computation rules -/

theorem login_ok {scrypt : Str → Str → List Nat} {db : Db} {phone password : Str}
    {u : User} (r : ℚ) (now : Nat) (sms : Bool)
    (h : localVerify scrypt db phone password = .ok u) :
    loginHandler scrypt db phone password r now sms =
      { status := 200, body := .codeSent true u.id, session := none,
        db := updateUser db u.id (fun v =>
          { v with twoFactorCode := some (generateTwoFactorCode r),
                   twoFactorExpiry := some (now + 5 * 60 * 1000) }),
        events := [.dbWrite u.id (generateTwoFactorCode r) (now + 5 * 60 * 1000),
                   .smsSend u.phone (generateTwoFactorCode r)],
        errLog := if sms then [] else [smsFailLine u.phone] } := by
  unfold loginHandler
  rw [h]

theorem login_fail {scrypt : Str → Str → List Nat} {db : Db}
    {phone password : Str} (r : ℚ) (now : Nat) (sms : Bool)
    (h : localVerify scrypt db phone password = .fail) :
    loginHandler scrypt db phone password r now sms =
      { status := 401, body := .failMsg, session := none, db := db,
        events := [], errLog := [] } := by
  unfold loginHandler
  rw [h]

theorem login_err {scrypt : Str → Str → List Nat} {db : Db}
    {phone password : Str} (r : ℚ) (now : Nat) (sms : Bool)
    (h : localVerify scrypt db phone password = .err) :
    loginHandler scrypt db phone password r now sms =
      { status := 500, body := .serverError, session := none, db := db,
        events := [], errLog := [] } := by
  unfold loginHandler
  rw [h]

theorem localVerify_ok_inv {scrypt : Str → Str → List Nat} {db : Db}
    {phone password : Str} {u : User}
    (h : localVerify scrypt db phone password = .ok u) :
    getUserByPhone db phone = some u ∧ u.isActive = true ∧
      comparePasswords scrypt password u.password = some true := by
  unfold localVerify at h
  cases hg : getUserByPhone db phone with
  | none => rw [hg] at h; simp at h
  | some v =>
    rw [hg] at h
    dsimp only at h
    by_cases ha : v.isActive = false
    · rw [if_pos ha] at h; cases h
    · rw [if_neg ha] at h
      cases hc : comparePasswords scrypt password v.password with
      | none => rw [hc] at h; cases h
      | some b =>
        rw [hc] at h
        cases b with
        | false => simp at h
        | true =>
          dsimp only at h
          cases h
          exact ⟨rfl, by simpa using ha, hc⟩

theorem verify2fa_missing (db : Db) (uid c : Str) (now : Nat)
    (h : uid = [] ∨ c = []) :
    verify2faHandler db uid c now =
      { status := 400, body := .missingFields, session := none, db := db } := by
  unfold verify2faHandler
  rw [if_pos h]

theorem verify2fa_success {db : Db} {uid c : Str} {now : Nat} {u : User}
    (hget : getUser db uid = some u) (huid : uid ≠ []) (hc : c ≠ [])
    (hcode : u.twoFactorCode = some c) {e : Nat}
    (hexp : u.twoFactorExpiry = some e) (hnow : ¬ e < now) :
    verify2faHandler db uid c now =
      { status := 200, body := .ok (publicView u), session := some u.id,
        db := updateUser db u.id (fun v =>
          { v with twoFactorCode := none, twoFactorExpiry := none }) } := by
  unfold verify2faHandler
  rw [if_neg (by simp [huid, hc]), hget]
  dsimp only
  rw [hcode, hexp]
  dsimp only
  rw [if_neg hc, if_neg hnow, if_neg (by simp)]

theorem verify2fa_noPending {db : Db} {uid c : Str} {now : Nat} {u : User}
    (hget : getUser db uid = some u) (huid : uid ≠ []) (hc : c ≠ [])
    (hcode : u.twoFactorCode = none ∨ u.twoFactorExpiry = none) :
    verify2faHandler db uid c now =
      { status := 400, body := .noPendingCode, session := none, db := db } := by
  unfold verify2faHandler
  rw [if_neg (by simp [huid, hc]), hget]
  dsimp only
  cases h1 : u.twoFactorCode with
  | none =>
    cases h2 : u.twoFactorExpiry <;> rfl
  | some stored =>
    cases h2 : u.twoFactorExpiry with
    | none => rfl
    | some e =>
      rcases hcode with hcode | hcode
      · rw [h1] at hcode; cases hcode
      · rw [h2] at hcode; cases hcode

theorem verify2fa_expired {db : Db} {uid : Str} {now : Nat} {u : User}
    {stored : Str} {e : Nat}
    (hget : getUser db uid = some u) (huid : uid ≠ [])
    (hcode : u.twoFactorCode = some stored) (hse : stored ≠ [])
    (hexp : u.twoFactorExpiry = some e) (hlt : e < now)
    (c : Str) (hc : c ≠ []) :
    verify2faHandler db uid c now =
      { status := 400, body := .expired, session := none, db := db } := by
  unfold verify2faHandler
  rw [if_neg (by simp [huid, hc]), hget]
  dsimp only
  rw [hcode, hexp]
  dsimp only
  rw [if_neg hse, if_pos hlt]

theorem verify2fa_wrong {db : Db} {uid : Str} {now : Nat} {u : User}
    {stored : Str} {e : Nat}
    (hget : getUser db uid = some u) (huid : uid ≠ [])
    (hcode : u.twoFactorCode = some stored) (hse : stored ≠ [])
    (hexp : u.twoFactorExpiry = some e) (hnow : ¬ e < now)
    (c : Str) (hc : c ≠ []) (hne : stored ≠ c) :
    verify2faHandler db uid c now =
      { status := 400, body := .wrongCode, session := none, db := db } := by
  unfold verify2faHandler
  rw [if_neg (by simp [huid, hc]), hget]
  dsimp only
  rw [hcode, hexp]
  dsimp only
  rw [if_neg hse, if_neg hnow, if_pos hne]

/-- Exhaustive shape of the verify-2fa handler: either the full check chain
passed and the result is the success record, or the result is a failure
with no session, an unchanged database, and a non-success status/body. -/
theorem verify2fa_total (db : Db) (uid c : Str) (now : Nat) :
    (∃ u : User, ∃ e : Nat, getUser db uid = some u ∧ uid ≠ [] ∧ c ≠ [] ∧
      u.twoFactorCode = some c ∧ u.twoFactorExpiry = some e ∧ ¬ e < now ∧
      verify2faHandler db uid c now =
        { status := 200, body := .ok (publicView u), session := some u.id,
          db := updateUser db u.id (fun v =>
            { v with twoFactorCode := none, twoFactorExpiry := none }) }) ∨
    ((verify2faHandler db uid c now).session = none ∧
      (verify2faHandler db uid c now).db = db ∧
      (verify2faHandler db uid c now).status ≠ 200 ∧
      ∀ b, (verify2faHandler db uid c now).body ≠ .ok b) := by
  by_cases h1 : uid = [] ∨ c = []
  · right
    rw [verify2fa_missing db uid c now h1]
    simp
  · push_neg at h1
    obtain ⟨huid, hc⟩ := h1
    cases hg : getUser db uid with
    | none =>
      right
      have : verify2faHandler db uid c now =
          { status := 404, body := .userNotFound, session := none, db := db } := by
        unfold verify2faHandler
        rw [if_neg (by simp [huid, hc]), hg]
      rw [this]
      simp
    | some u =>
      cases hcode : u.twoFactorCode with
      | none =>
        right
        rw [verify2fa_noPending hg huid hc (Or.inl hcode)]
        simp
      | some stored =>
        cases hexp : u.twoFactorExpiry with
        | none =>
          right
          rw [verify2fa_noPending hg huid hc (Or.inr hexp)]
          simp
        | some e =>
          by_cases hse : stored = []
          · right
            have : verify2faHandler db uid c now =
                { status := 400, body := .noPendingCode, session := none, db := db } := by
              unfold verify2faHandler
              rw [if_neg (by simp [huid, hc]), hg]
              dsimp only
              rw [hcode, hexp]
              dsimp only
              rw [if_pos hse]
            rw [this]
            simp
          · by_cases hlt : e < now
            · right
              rw [verify2fa_expired hg huid hcode hse hexp hlt c hc]
              simp
            · by_cases hne : stored = c
              · left
                subst hne
                exact ⟨u, e, rfl, huid, hc, hcode, hexp, hlt,
                  verify2fa_success hg huid hc hcode hexp hlt⟩
              · right
                rw [verify2fa_wrong hg huid hcode hse hexp hlt c hc hne]
                simp

/-- A concrete user row used in closed witness instances: active, password
hash `"00.ab"` (matching any password under the one-byte derivation
`fun _ _ => [0]`), with pending code `"123456"` expiring at time 1000. -/
def sampleUser : User :=
  { id := "u1".toList, phone := "05551112233".toList,
    password := "00.ab".toList, name := "Test User".toList,
    role := "branch_admin".toList, branchId := none, isActive := true,
    twoFactorCode := some "123456".toList, twoFactorExpiry := some 1000 }

/-! ## C1: a session is granted only after both checks -/

/-- C1. The `/api/login` handler never establishes a session, on any path;
the `/api/verify-2fa` handler establishes one only on its success branch,
which requires a stored pending code equal to the submitted one and an
unexpired stored expiry (the two-factor check) on top of the password
check already performed by `/api/login`.  (`/api/register` also calls
`req.login`, but at registration, with no password check involved.) -/
theorem c1_session_requires_both_checks :
    (∀ (scrypt : Str → Str → List Nat) (db : Db) (phone password : Str)
        (r : ℚ) (now : Nat) (sms : Bool),
      (loginHandler scrypt db phone password r now sms).session = none) ∧
    (∀ (db : Db) (userId code : Str) (now : Nat) (x : Str),
      (verify2faHandler db userId code now).session = some x →
      ∃ u : User, ∃ e : Nat, getUser db userId = some u ∧ x = u.id ∧
        u.twoFactorCode = some code ∧ u.twoFactorExpiry = some e ∧
        ¬ e < now ∧ (verify2faHandler db userId code now).status = 200 ∧
        (verify2faHandler db userId code now).body = .ok (publicView u)) := by
  constructor
  · intro scrypt db phone password r now sms
    cases h : localVerify scrypt db phone password with
    | fail => rw [login_fail r now sms h]
    | ok u => rw [login_ok r now sms h]
    | err => rw [login_err r now sms h]
  · intro db userId code now x h
    rcases verify2fa_total db userId code now with
      ⟨u, e, hg, _, _, hcode, hexp, hnow, heq⟩ | ⟨hs, _, _, _⟩
    · refine ⟨u, e, hg, ?_, hcode, hexp, hnow, by rw [heq], by rw [heq]⟩
      rw [heq] at h
      simp only [Option.some.injEq] at h
      exact h.symm
    · rw [hs] at h
      cases h
  
/-- Closed witness for `c1_session_requires_both_checks`. -/
theorem c1_session_requires_both_checks_witness :
    (loginHandler (fun _ _ => [0]) [sampleUser] "05551112233".toList
        "pw".toList 0 0 true).session = none ∧
    (verify2faHandler [sampleUser] "u1".toList "123456".toList 500).session =
      some "u1".toList ∧
    (∃ u : User, ∃ e : Nat, getUser [sampleUser] "u1".toList = some u ∧
      "u1".toList = u.id ∧ u.twoFactorCode = some "123456".toList ∧
      u.twoFactorExpiry = some e ∧ ¬ e < 500 ∧
      (verify2faHandler [sampleUser] "u1".toList "123456".toList 500).status = 200 ∧
      (verify2faHandler [sampleUser] "u1".toList "123456".toList 500).body =
        .ok (publicView u)) :=
  ⟨c1_session_requires_both_checks.1 _ _ _ _ _ _ _,
   by decide,
   c1_session_requires_both_checks.2 [sampleUser] "u1".toList "123456".toList
     500 "u1".toList (by decide)⟩

/-! ## C2: all three login-denial causes return 401 -/

/-- C2. Whenever the phone matches no user, or the matched user is
inactive, or the password comparison returns false, `POST /api/login`
responds with status 401 — the same status for all three causes. -/
theorem c2_login_unauthorized_401 (scrypt : Str → Str → List Nat) (db : Db)
    (phone password : Str) (r : ℚ) (now : Nat) (sms : Bool)
    (h : getUserByPhone db phone = none ∨
      ∃ u : User, getUserByPhone db phone = some u ∧
        (u.isActive = false ∨
          comparePasswords scrypt password u.password = some false)) :
    (loginHandler scrypt db phone password r now sms).status = 401 := by
  have hfail : localVerify scrypt db phone password = .fail := by
    unfold localVerify
    rcases h with h | ⟨u, hu, hcase⟩
    · rw [h]
    · rw [hu]
      dsimp only
      by_cases ha : u.isActive = false
      · rw [if_pos ha]
      · rw [if_neg ha]
        rcases hcase with hact | hpw
        · exact absurd hact ha
        · rw [hpw]
  rw [login_fail r now sms hfail]

/-- Closed witness for `c2_login_unauthorized_401`: a phone that matches
no user. -/
theorem c2_login_unauthorized_401_witness :
    (getUserByPhone [sampleUser] "x".toList = none ∨
      ∃ u : User, getUserByPhone [sampleUser] "x".toList = some u ∧
        (u.isActive = false ∨
          comparePasswords (fun _ _ => [0]) "pw".toList u.password =
            some false)) ∧
    (loginHandler (fun _ _ => [0]) [sampleUser] "x".toList "pw".toList
      0 0 true).status = 401 :=
  ⟨Or.inl (by decide),
   c2_login_unauthorized_401 _ _ _ _ _ _ _ (Or.inl (by decide))⟩

/-! ## C7: SMS delivery failure is invisible to the client -/

/-- C7. The login handler's client-visible output (status, body, session)
and its database effect are identical whether the SMS gateway call
succeeds or fails; with valid credentials the response is the success body
`requiresTwoFactor := true` with the user id, the code and expiry are
written to the database, the effect trace places the database write before
the gateway send, and delivery failure only adds a server-side log
line. -/
theorem c7_sms_outcome_invisible (scrypt : Str → Str → List Nat) (db : Db)
    (phone password : Str) (r : ℚ) (now : Nat) :
    (loginHandler scrypt db phone password r now true).status =
      (loginHandler scrypt db phone password r now false).status ∧
    (loginHandler scrypt db phone password r now true).body =
      (loginHandler scrypt db phone password r now false).body ∧
    (loginHandler scrypt db phone password r now true).session =
      (loginHandler scrypt db phone password r now false).session ∧
    (loginHandler scrypt db phone password r now true).db =
      (loginHandler scrypt db phone password r now false).db ∧
    (loginHandler scrypt db phone password r now true).events =
      (loginHandler scrypt db phone password r now false).events ∧
    (loginHandler scrypt db phone password r now true).errLog = [] ∧
    (∀ u : User, localVerify scrypt db phone password = .ok u →
      (loginHandler scrypt db phone password r now false).errLog =
        [smsFailLine u.phone] ∧
      (loginHandler scrypt db phone password r now true).status = 200 ∧
      (loginHandler scrypt db phone password r now true).body =
        .codeSent true u.id ∧
      (loginHandler scrypt db phone password r now true).db =
        updateUser db u.id (fun v =>
          { v with twoFactorCode := some (generateTwoFactorCode r),
                   twoFactorExpiry := some (now + 5 * 60 * 1000) }) ∧
      (loginHandler scrypt db phone password r now true).events =
        [.dbWrite u.id (generateTwoFactorCode r) (now + 5 * 60 * 1000),
         .smsSend u.phone (generateTwoFactorCode r)]) := by
  cases h : localVerify scrypt db phone password with
  | fail =>
    rw [login_fail r now true h, login_fail r now false h]
    refine ⟨rfl, rfl, rfl, rfl, rfl, rfl, ?_⟩
    intro u hu
    cases hu
  | err =>
    rw [login_err r now true h, login_err r now false h]
    refine ⟨rfl, rfl, rfl, rfl, rfl, rfl, ?_⟩
    intro u hu
    cases hu
  | ok u =>
    rw [login_ok r now true h, login_ok r now false h]
    refine ⟨rfl, rfl, rfl, rfl, rfl, rfl, ?_⟩
    intro u' hu'
    injection hu' with hu'
    subst hu'
    exact ⟨rfl, rfl, rfl, rfl, rfl⟩

/-- Closed witness for `c7_sms_outcome_invisible`: a login with valid
credentials. -/
theorem c7_sms_outcome_invisible_witness :
    (localVerify (fun _ _ => [0]) [sampleUser] "05551112233".toList
      "pw".toList = .ok sampleUser) ∧
    ((loginHandler (fun _ _ => [0]) [sampleUser] "05551112233".toList
        "pw".toList 0 0 false).errLog = [smsFailLine sampleUser.phone] ∧
      (loginHandler (fun _ _ => [0]) [sampleUser] "05551112233".toList
        "pw".toList 0 0 true).status = 200 ∧
      (loginHandler (fun _ _ => [0]) [sampleUser] "05551112233".toList
        "pw".toList 0 0 true).body = .codeSent true sampleUser.id ∧
      (loginHandler (fun _ _ => [0]) [sampleUser] "05551112233".toList
        "pw".toList 0 0 true).db =
        updateUser [sampleUser] sampleUser.id (fun v =>
          { v with twoFactorCode := some (generateTwoFactorCode 0),
                   twoFactorExpiry := some (0 + 5 * 60 * 1000) }) ∧
      (loginHandler (fun _ _ => [0]) [sampleUser] "05551112233".toList
        "pw".toList 0 0 true).events =
        [.dbWrite sampleUser.id (generateTwoFactorCode 0) (0 + 5 * 60 * 1000),
         .smsSend sampleUser.phone (generateTwoFactorCode 0)]) :=
  ⟨by decide,
   (c7_sms_outcome_invisible (fun _ _ => [0]) [sampleUser]
     "05551112233".toList "pw".toList 0 0).2.2.2.2.2.2 sampleUser (by decide)⟩

/-! ## C4: a stored code is consumable exactly once -/

/-- C4. With a pending unexpired code `c`, verify-2fa with `c` succeeds
(status 200, session established) and clears both `twoFactorCode` and
`twoFactorExpiry`; any later verify-2fa for the same user with the same
code then hits the "no pending code" branch: status 400, body
`noPendingCode`, no session. -/
theorem c4_code_single_use {db : Db} {uid c : Str} {now : Nat} {u : User}
    (hget : getUser db uid = some u) (huid : uid ≠ []) (hc : c ≠ [])
    (hcode : u.twoFactorCode = some c) {e : Nat}
    (hexp : u.twoFactorExpiry = some e) (hnow : ¬ e < now) :
    (verify2faHandler db uid c now).status = 200 ∧
    (verify2faHandler db uid c now).session = some u.id ∧
    getUser (verify2faHandler db uid c now).db uid =
      some { u with twoFactorCode := none, twoFactorExpiry := none } ∧
    ∀ now' : Nat,
      (verify2faHandler (verify2faHandler db uid c now).db uid c now').status
        = 400 ∧
      (verify2faHandler (verify2faHandler db uid c now).db uid c now').body
        = .noPendingCode ∧
      (verify2faHandler (verify2faHandler db uid c now).db uid c now').session
        = none := by
  have hid := getUser_id_eq hget
  have hupd : getUser (updateUser db u.id (fun v =>
      { v with twoFactorCode := none, twoFactorExpiry := none })) uid =
      some { u with twoFactorCode := none, twoFactorExpiry := none } := by
    have hg2 : getUser db u.id = some u := by rw [hid]; exact hget
    have h0 := getUser_updateUser
      (fun v => { v with twoFactorCode := none, twoFactorExpiry := none })
      (fun v => rfl) hg2
    rw [← hid]
    exact h0
  rw [verify2fa_success hget huid hc hcode hexp hnow]
  dsimp only
  refine ⟨rfl, rfl, hupd, ?_⟩
  intro now'
  rw [verify2fa_noPending hupd huid hc (Or.inl rfl)]
  exact ⟨rfl, rfl, rfl⟩

/-- Closed witness for `c4_code_single_use`. -/
theorem c4_code_single_use_witness :
    (getUser [sampleUser] "u1".toList = some sampleUser ∧
      "u1".toList ≠ ([] : Str) ∧ "123456".toList ≠ ([] : Str) ∧
      sampleUser.twoFactorCode = some "123456".toList ∧
      sampleUser.twoFactorExpiry = some 1000 ∧ ¬ (1000 : Nat) < 500) ∧
    ((verify2faHandler [sampleUser] "u1".toList "123456".toList 500).status
        = 200 ∧
      (verify2faHandler [sampleUser] "u1".toList "123456".toList 500).session
        = some sampleUser.id ∧
      getUser (verify2faHandler [sampleUser] "u1".toList "123456".toList
          500).db "u1".toList =
        some { sampleUser with
          twoFactorCode := none,
          twoFactorExpiry := none } ∧
      ∀ now' : Nat,
        (verify2faHandler (verify2faHandler [sampleUser] "u1".toList
            "123456".toList 500).db "u1".toList "123456".toList now').status
          = 400 ∧
        (verify2faHandler (verify2faHandler [sampleUser] "u1".toList
            "123456".toList 500).db "u1".toList "123456".toList now').body
          = .noPendingCode ∧
        (verify2faHandler (verify2faHandler [sampleUser] "u1".toList
            "123456".toList 500).db "u1".toList "123456".toList now').session
          = none) :=
  ⟨⟨by decide, by decide, by decide, by decide, by decide, by decide⟩,
   c4_code_single_use (u := sampleUser) (e := 1000) (by decide) (by decide)
     (by decide) (by decide) (by decide) (by decide)⟩

/-! ## C5: expiry is checked strictly, before the code comparison -/

/-- C5. With a pending code, any verify-2fa strictly after the stored
expiry fails with the "expired" condition (status 400) even if the
submitted code equals the stored one; at or before the expiry instant the
expiry check never fires, whatever code is submitted. -/
theorem c5_expiry_strict {db : Db} {uid : Str} {now : Nat} {u : User}
    {c : Str} {e : Nat}
    (hget : getUser db uid = some u) (huid : uid ≠ [])
    (hcode : u.twoFactorCode = some c) (hsc : c ≠ [])
    (hexp : u.twoFactorExpiry = some e) :
    (e < now → ∀ c' : Str, c' ≠ [] →
      (verify2faHandler db uid c' now).status = 400 ∧
      (verify2faHandler db uid c' now).body = .expired) ∧
    (¬ e < now → ∀ c' : Str,
      (verify2faHandler db uid c' now).body ≠ .expired) := by
  constructor
  · intro hlt c' hc'
    rw [verify2fa_expired hget huid hcode hsc hexp hlt c' hc']
    exact ⟨rfl, rfl⟩
  · intro hnow c'
    by_cases hc' : c' = []
    · rw [verify2fa_missing db uid c' now (Or.inr hc')]
      simp
    · by_cases heq : c = c'
      · subst heq
        rw [verify2fa_success hget huid hc' hcode hexp hnow]
        simp
      · rw [verify2fa_wrong hget huid hcode hsc hexp hnow c' hc' heq]
        simp

/-- Closed witness for `c5_expiry_strict`: the stored code itself is
submitted after the expiry instant. -/
theorem c5_expiry_strict_witness :
    (getUser [sampleUser] "u1".toList = some sampleUser ∧
      "u1".toList ≠ ([] : Str) ∧
      sampleUser.twoFactorCode = some "123456".toList ∧
      "123456".toList ≠ ([] : Str) ∧
      sampleUser.twoFactorExpiry = some 1000 ∧ (1000 : Nat) < 2000) ∧
    ((verify2faHandler [sampleUser] "u1".toList "123456".toList 2000).status
        = 400 ∧
      (verify2faHandler [sampleUser] "u1".toList "123456".toList 2000).body
        = .expired) :=
  ⟨⟨by decide, by decide, by decide, by decide, by decide, by decide⟩,
   (c5_expiry_strict (u := sampleUser) (c := "123456".toList) (e := 1000)
       (by decide) (by decide) (by decide) (by decide) (by decide)).1
     (by decide) "123456".toList (by decide)⟩

/-! ## C9: failing verify-2fa attempts leave the user record unchanged -/

/-- C9. For a user in the code-issued state, a verify-2fa attempt that
fails because the code is expired or mismatching performs no database
write: the returned database is the input database, the user keeps the
same stored code and expiry, no session is granted, and the status is
400. -/
theorem c9_failed_verify_unchanged {db : Db} {uid : Str} {now : Nat}
    {u : User} {c : Str} {e : Nat} (c' : Str)
    (hget : getUser db uid = some u) (huid : uid ≠ [])
    (hcode : u.twoFactorCode = some c) (hsc : c ≠ [])
    (hexp : u.twoFactorExpiry = some e) (hc' : c' ≠ [])
    (hfail : e < now ∨ c ≠ c') :
    (verify2faHandler db uid c' now).db = db ∧
    (verify2faHandler db uid c' now).status = 400 ∧
    (verify2faHandler db uid c' now).session = none ∧
    getUser (verify2faHandler db uid c' now).db uid = some u := by
  by_cases hlt : e < now
  · rw [verify2fa_expired hget huid hcode hsc hexp hlt c' hc']
    exact ⟨rfl, rfl, rfl, hget⟩
  · rcases hfail with hfail | hne
    · exact absurd hfail hlt
    · rw [verify2fa_wrong hget huid hcode hsc hexp hlt c' hc' hne]
      exact ⟨rfl, rfl, rfl, hget⟩

/-- Closed witness for `c9_failed_verify_unchanged`: a wrong guess before
expiry. -/
theorem c9_failed_verify_unchanged_witness :
    (getUser [sampleUser] "u1".toList = some sampleUser ∧
      "u1".toList ≠ ([] : Str) ∧
      sampleUser.twoFactorCode = some "123456".toList ∧
      "123456".toList ≠ ([] : Str) ∧
      sampleUser.twoFactorExpiry = some 1000 ∧
      "999999".toList ≠ ([] : Str) ∧
      ((1000 : Nat) < 500 ∨ "123456".toList ≠ "999999".toList)) ∧
    ((verify2faHandler [sampleUser] "u1".toList "999999".toList 500).db =
        [sampleUser] ∧
      (verify2faHandler [sampleUser] "u1".toList "999999".toList 500).status
        = 400 ∧
      (verify2faHandler [sampleUser] "u1".toList "999999".toList 500).session
        = none ∧
      getUser (verify2faHandler [sampleUser] "u1".toList "999999".toList
          500).db "u1".toList = some sampleUser) :=
  ⟨⟨by decide, by decide, by decide, by decide, by decide, by decide,
     Or.inr (by decide)⟩,
   c9_failed_verify_unchanged (u := sampleUser) (c := "123456".toList)
     (e := 1000) "999999".toList
     (by decide) (by decide) (by decide) (by decide) (by decide) (by decide)
     (Or.inr (by decide))⟩

/-! ## C10: responses never contain the password hash or the 2FA code -/

/-- C10. The success bodies of register, verify-2fa and `GET /api/user`
are exactly the five public fields `{id, phone, name, role, branchId}`
(the type `PublicUser` has no other field), so two users differing only in
`password`, `twoFactorCode` or `twoFactorExpiry` produce identical
response bodies. -/
theorem c10_responses_hide_secrets :
    (∀ (u : User) (pw : Str) (tc : Option Str) (te : Option Nat),
      publicView { u with
        password := pw,
        twoFactorCode := tc,
        twoFactorExpiry := te } = publicView u) ∧
    (∀ u : User, userHandler (some u) = .ok (publicView u)) ∧
    (∀ (db : Db) (uid c : Str) (now : Nat) (b : PublicUser),
      (verify2faHandler db uid c now).body = .ok b →
      ∃ u : User, getUser db uid = some u ∧ b = publicView u) ∧
    (∀ (scrypt : Str → Str → List Nat) (db : Db)
        (phone password name : Str) (role branchId : Option Str)
        (saltBytes : List Nat) (newId : Str) (b : PublicUser),
      (registerHandler scrypt db phone password name role branchId saltBytes
        newId).body = some b →
      ∃ u : User, b = publicView u ∧
        (registerHandler scrypt db phone password name role branchId
          saltBytes newId).db = createUser db u) := by
  refine ⟨fun u pw tc te => rfl, fun u => rfl, ?_, ?_⟩
  · intro db uid c now b h
    rcases verify2fa_total db uid c now with
      ⟨u, e, hg, _, _, _, _, _, heq⟩ | ⟨_, _, _, hbody⟩
    · rw [heq] at h
      dsimp only at h
      injection h with h
      exact ⟨u, hg, h.symm⟩
    · exact absurd h (hbody b)
  · intro scrypt db phone password name role branchId saltBytes newId b h
    unfold registerHandler at h
    by_cases h1 : phone = [] ∨ password = [] ∨ name = []
    · rw [if_pos h1] at h
      simp at h
    · rw [if_neg h1] at h
      cases hg : getUserByPhone db phone with
      | some v =>
        rw [hg] at h
        simp at h
      | none =>
        rw [hg] at h
        dsimp only at h
        injection h with h
        refine ⟨_, h.symm, ?_⟩
        unfold registerHandler
        rw [if_neg h1, hg]

/-- Closed witness for `c10_responses_hide_secrets`: a successful
verify-2fa whose body is the public view of the stored user. -/
theorem c10_responses_hide_secrets_witness :
    ((verify2faHandler [sampleUser] "u1".toList "123456".toList 500).body =
      .ok (publicView sampleUser)) ∧
    (∃ u : User, getUser [sampleUser] "u1".toList = some u ∧
      publicView sampleUser = publicView u) :=
  ⟨by decide,
   c10_responses_hide_secrets.2.2.1 [sampleUser] "u1".toList "123456".toList
     500 (publicView sampleUser) (by decide)⟩

/-! ## C6: a second login overwrites and invalidates the pending code -/

theorem generateTwoFactorCode_ne_nil (r : ℚ) : generateTwoFactorCode r ≠ [] :=
  natToStr_ne_nil _

theorem generateTwoFactorCode_zero : generateTwoFactorCode 0 = "100000".toList := by
  have h : generateTwoFactorValue 0 = 100000 := by
    unfold generateTwoFactorValue
    norm_num
  unfold generateTwoFactorCode
  rw [h]
  decide

theorem generateTwoFactorCode_half :
    generateTwoFactorCode (1 / 2) = "550000".toList := by
  have h : generateTwoFactorValue (1 / 2) = 550000 := by
    unfold generateTwoFactorValue
    rw [Nat.floor_eq_iff (by norm_num)]
    norm_num
  unfold generateTwoFactorCode
  rw [h]
  decide

/-- After the login handler's two-factor update of the authenticated
user's row, the LocalStrategy callback still authenticates the same
credentials, now returning the updated row. -/
theorem localVerify_after_2fa_update {scrypt : Str → Str → List Nat}
    {db : Db} {phone password : Str} {u : User}
    (hlv : localVerify scrypt db phone password = .ok u)
    (c : Option Str) (e : Option Nat) :
    localVerify scrypt (updateUser db u.id (fun v =>
      { v with twoFactorCode := c, twoFactorExpiry := e })) phone password =
      .ok { u with twoFactorCode := c, twoFactorExpiry := e } := by
  obtain ⟨hphone, hact, hcmp⟩ := localVerify_ok_inv hlv
  have h0 := getUserByPhone_updateUser u.id (fun v =>
      { v with twoFactorCode := c, twoFactorExpiry := e })
    (fun v => rfl) hphone
  unfold localVerify
  rw [h0]
  simp [hact, hcmp]

/-- Counterexample to C6 as frozen: when the second login's random draw
equals the first one's (both `0` here), the "freshly generated" code is
the same string `"100000"`, and a verify-2fa request submitting the
previously issued, still-unexpired code succeeds (status 200 and a
session) instead of failing. -/
theorem c6_counterexample :
    generateTwoFactorCode 0 = "100000".toList ∧
    (loginHandler (fun _ _ => [0]) [sampleUser] "05551112233".toList
        "pw".toList 0 1000 true).db =
      [{ sampleUser with
          twoFactorCode := some "100000".toList,
          twoFactorExpiry := some 301000 }] ∧
    (loginHandler (fun _ _ => [0])
        (loginHandler (fun _ _ => [0]) [sampleUser] "05551112233".toList
          "pw".toList 0 1000 true).db
        "05551112233".toList "pw".toList 0 2000 true).db =
      [{ sampleUser with
          twoFactorCode := some "100000".toList,
          twoFactorExpiry := some 302000 }] ∧
    (verify2faHandler
        (loginHandler (fun _ _ => [0])
          (loginHandler (fun _ _ => [0]) [sampleUser] "05551112233".toList
            "pw".toList 0 1000 true).db
          "05551112233".toList "pw".toList 0 2000 true).db
        "u1".toList (generateTwoFactorCode 0) 2500).status = 200 ∧
    (verify2faHandler
        (loginHandler (fun _ _ => [0])
          (loginHandler (fun _ _ => [0]) [sampleUser] "05551112233".toList
            "pw".toList 0 1000 true).db
          "05551112233".toList "pw".toList 0 2000 true).db
        "u1".toList (generateTwoFactorCode 0) 2500).session =
      some "u1".toList := by
  have hlv1 : localVerify (fun _ _ => [0]) [sampleUser] "05551112233".toList
      "pw".toList = .ok sampleUser := by decide
  have hdb1 : (loginHandler (fun _ _ => [0]) [sampleUser]
      "05551112233".toList "pw".toList 0 1000 true).db =
      [{ sampleUser with
          twoFactorCode := some "100000".toList,
          twoFactorExpiry := some 301000 }] := by
    rw [login_ok 0 1000 true hlv1]
    dsimp only
    rw [generateTwoFactorCode_zero]
    decide
  have hlv2 : localVerify (fun _ _ => [0])
      [{ sampleUser with
          twoFactorCode := some "100000".toList,
          twoFactorExpiry := some 301000 }] "05551112233".toList
      "pw".toList = .ok { sampleUser with
          twoFactorCode := some "100000".toList,
          twoFactorExpiry := some 301000 } := by decide
  have hdb2 : (loginHandler (fun _ _ => [0])
      (loginHandler (fun _ _ => [0]) [sampleUser] "05551112233".toList
        "pw".toList 0 1000 true).db
      "05551112233".toList "pw".toList 0 2000 true).db =
      [{ sampleUser with
          twoFactorCode := some "100000".toList,
          twoFactorExpiry := some 302000 }] := by
    rw [hdb1, login_ok 0 2000 true hlv2]
    dsimp only
    rw [generateTwoFactorCode_zero]
    decide
  refine ⟨generateTwoFactorCode_zero, hdb1, hdb2, ?_, ?_⟩
  · rw [hdb2, generateTwoFactorCode_zero]
    decide
  · rw [hdb2, generateTwoFactorCode_zero]
    decide

/-- C6 (amended). A second successful login always overwrites the stored
pending code and expiry with the freshly generated values; and provided
the freshly generated code differs from the previously issued one (the
two draws may coincide, in which case the old code still verifies — see
the counterexample), every later verify-2fa submitting the previously
issued code fails with status 400 (expired or wrong-code) and no
session. -/
theorem c6_second_login_invalidates {scrypt : Str → Str → List Nat}
    {db : Db} {phone password : Str} {u : User}
    (hlv : localVerify scrypt db phone password = .ok u)
    (hgid : getUser db u.id = some u) (huid : u.id ≠ [])
    (r1 r2 : ℚ) (t1 t2 : Nat) (s1 s2 : Bool)
    (hne : generateTwoFactorCode r2 ≠ generateTwoFactorCode r1) :
    (loginHandler scrypt
        (loginHandler scrypt db phone password r1 t1 s1).db
        phone password r2 t2 s2).status = 200 ∧
    getUser (loginHandler scrypt
        (loginHandler scrypt db phone password r1 t1 s1).db
        phone password r2 t2 s2).db u.id =
      some { u with
        twoFactorCode := some (generateTwoFactorCode r2),
        twoFactorExpiry := some (t2 + 5 * 60 * 1000) } ∧
    ∀ now : Nat,
      (verify2faHandler (loginHandler scrypt
          (loginHandler scrypt db phone password r1 t1 s1).db
          phone password r2 t2 s2).db
        u.id (generateTwoFactorCode r1) now).status = 400 ∧
      (verify2faHandler (loginHandler scrypt
          (loginHandler scrypt db phone password r1 t1 s1).db
          phone password r2 t2 s2).db
        u.id (generateTwoFactorCode r1) now).session = none ∧
      ((verify2faHandler (loginHandler scrypt
          (loginHandler scrypt db phone password r1 t1 s1).db
          phone password r2 t2 s2).db
        u.id (generateTwoFactorCode r1) now).body = .expired ∨
       (verify2faHandler (loginHandler scrypt
          (loginHandler scrypt db phone password r1 t1 s1).db
          phone password r2 t2 s2).db
        u.id (generateTwoFactorCode r1) now).body = .wrongCode) := by
  have hlv2 := localVerify_after_2fa_update hlv
    (some (generateTwoFactorCode r1)) (some (t1 + 5 * 60 * 1000))
  rw [login_ok r1 t1 s1 hlv]
  dsimp only
  rw [login_ok r2 t2 s2 hlv2]
  dsimp only
  have hg1 : getUser (updateUser db u.id (fun v =>
      { v with
        twoFactorCode := some (generateTwoFactorCode r1),
        twoFactorExpiry := some (t1 + 5 * 60 * 1000) })) u.id =
      some { u with
        twoFactorCode := some (generateTwoFactorCode r1),
        twoFactorExpiry := some (t1 + 5 * 60 * 1000) } :=
    getUser_updateUser _ (fun v => rfl) hgid
  have hg2 := getUser_updateUser (fun v =>
      { v with twoFactorCode := some (generateTwoFactorCode r2),
               twoFactorExpiry := some (t2 + 5 * 60 * 1000) })
    (fun v => rfl) hg1
  refine ⟨rfl, hg2, ?_⟩
  intro now
  by_cases hlt : t2 + 5 * 60 * 1000 < now
  · rw [verify2fa_expired hg2 huid rfl (generateTwoFactorCode_ne_nil r2) rfl
      hlt (generateTwoFactorCode r1) (generateTwoFactorCode_ne_nil r1)]
    exact ⟨rfl, rfl, Or.inl rfl⟩
  · rw [verify2fa_wrong hg2 huid rfl (generateTwoFactorCode_ne_nil r2) rfl
      hlt (generateTwoFactorCode r1) (generateTwoFactorCode_ne_nil r1) hne]
    exact ⟨rfl, rfl, Or.inr rfl⟩

/-- Closed witness for `c6_second_login_invalidates`: draws `0` then
`1/2`, so the fresh code `"550000"` differs from the old `"100000"`. -/
theorem c6_second_login_invalidates_witness :
    (localVerify (fun _ _ => [0]) [sampleUser] "05551112233".toList
        "pw".toList = .ok sampleUser ∧
      getUser [sampleUser] sampleUser.id = some sampleUser ∧
      sampleUser.id ≠ [] ∧
      generateTwoFactorCode (1 / 2) ≠ generateTwoFactorCode 0) ∧
    (loginHandler (fun _ _ => [0])
        (loginHandler (fun _ _ => [0]) [sampleUser] "05551112233".toList
          "pw".toList 0 1000 true).db
        "05551112233".toList "pw".toList (1 / 2) 2000 true).status = 200 ∧
    getUser (loginHandler (fun _ _ => [0])
        (loginHandler (fun _ _ => [0]) [sampleUser] "05551112233".toList
          "pw".toList 0 1000 true).db
        "05551112233".toList "pw".toList (1 / 2) 2000 true).db
      sampleUser.id =
      some { sampleUser with
        twoFactorCode := some (generateTwoFactorCode (1 / 2)),
        twoFactorExpiry := some (2000 + 5 * 60 * 1000) } ∧
    (verify2faHandler (loginHandler (fun _ _ => [0])
        (loginHandler (fun _ _ => [0]) [sampleUser] "05551112233".toList
          "pw".toList 0 1000 true).db
        "05551112233".toList "pw".toList (1 / 2) 2000 true).db
      sampleUser.id (generateTwoFactorCode 0) 2500).status = 400 ∧
    (verify2faHandler (loginHandler (fun _ _ => [0])
        (loginHandler (fun _ _ => [0]) [sampleUser] "05551112233".toList
          "pw".toList 0 1000 true).db
        "05551112233".toList "pw".toList (1 / 2) 2000 true).db
      sampleUser.id (generateTwoFactorCode 0) 2500).session = none ∧
    ((verify2faHandler (loginHandler (fun _ _ => [0])
        (loginHandler (fun _ _ => [0]) [sampleUser] "05551112233".toList
          "pw".toList 0 1000 true).db
        "05551112233".toList "pw".toList (1 / 2) 2000 true).db
      sampleUser.id (generateTwoFactorCode 0) 2500).body = .expired ∨
     (verify2faHandler (loginHandler (fun _ _ => [0])
        (loginHandler (fun _ _ => [0]) [sampleUser] "05551112233".toList
          "pw".toList 0 1000 true).db
        "05551112233".toList "pw".toList (1 / 2) 2000 true).db
      sampleUser.id (generateTwoFactorCode 0) 2500).body = .wrongCode) :=
  have hne : generateTwoFactorCode (1 / 2) ≠ generateTwoFactorCode 0 := by
    rw [generateTwoFactorCode_zero, generateTwoFactorCode_half]
    decide
  have happ := c6_second_login_invalidates (u := sampleUser)
    (by decide) (by decide) (by decide) 0 (1 / 2) 1000 2000 true true hne
  ⟨⟨by decide, by decide, by decide, hne⟩,
   happ.1, happ.2.1, (happ.2.2 2500).1, (happ.2.2 2500).2.1,
   (happ.2.2 2500).2.2⟩
